import Mathlib

/-!
Verification of the cookie_jar persistence layer.

This file is a shallow embedding of the program's data-access layer
(`src/models.rs`, `src/db.rs`) and of the control flow of one main-menu
cycle (`src/main.rs`).  The relational store backing the program (two
SQLite tables created by `init_schema`) is modelled as an explicit state
value: a list of bucket rows, a list of cookie rows, and the two
AUTOINCREMENT counters.  The declared schema constraints — `name TEXT
UNIQUE NOT NULL` on `buckets`, `CHECK(length(content) <= 300)` and
`FOREIGN KEY (bucket_id) REFERENCES buckets(id)` on `cookies` — are
modelled as enforced by the insert operations, exactly as the DDL in
`init_schema` declares them.  SQL statements are statement-atomic: a
failed insert returns the state unchanged.

Timestamps: the Rust code reads `chrono::Utc::now().timestamp()` (an i64
second count) at each insert; the embedding passes that clock value as an
explicit argument.  `chrono::DateTime<Utc>` is modelled at the second
granularity the program stores: an instant is its Unix second count.
-/

set_option maxRecDepth 8192

namespace CookieJar

/-- Smallest second-timestamp accepted by chrono's
`DateTime::from_timestamp`: the timestamp of `NaiveDateTime::MIN`,
midnight of `NaiveDate::MIN` = January 1, −262143. -/
def chronoMinTimestamp : Int := -8334601228800

/-- Largest second-timestamp accepted by chrono's
`DateTime::from_timestamp`: the timestamp of `NaiveDateTime::MAX`,
23:59:59 of `NaiveDate::MAX` = December 31, 262142. -/
def chronoMaxTimestamp : Int := 8210266876799

/-- Model of `chrono::DateTime::from_timestamp(secs, 0)`: `Some` instant
for an in-range second count, `None` for an out-of-range one. -/
def dateTimeFromTimestamp (secs : Int) : Option Int :=
  if chronoMinTimestamp ≤ secs ∧ secs ≤ chronoMaxTimestamp then some secs else none

/-- Model of `DateTime::<Utc>::default()`: the Unix epoch. -/
def unixEpoch : Int := 0

/-- Entity model of `models.rs` `Bucket` (the `created_at` field holds the
second count of the `DateTime<Utc>`). -/
structure Bucket where
  id : Int
  name : String
  created_at : Int
deriving Repr, DecidableEq

/-- Embedding of `Bucket::new` (`models.rs`):
`DateTime::from_timestamp(created_at, 0).unwrap_or_default()`. -/
def Bucket.new (id : Int) (name : String) (created_at : Int) : Bucket :=
  { id := id, name := name,
    created_at := (dateTimeFromTimestamp created_at).getD unixEpoch }

/-- Entity model of `models.rs` `Cookie`. -/
structure Cookie where
  id : Int
  bucket_id : Int
  content : String
  created_at : Int
deriving Repr, DecidableEq

/-- Embedding of `Cookie::new` (`models.rs`):
`DateTime::from_timestamp(created_at, 0).unwrap_or_default()`. -/
def Cookie.new (id : Int) (bucket_id : Int) (content : String) (created_at : Int) : Cookie :=
  { id := id, bucket_id := bucket_id, content := content,
    created_at := (dateTimeFromTimestamp created_at).getD unixEpoch }

/-- One row of the `buckets` table. -/
structure BucketRow where
  id : Int
  name : String
  created_at : Int
deriving Repr, DecidableEq

/-- One row of the `cookies` table. -/
structure CookieRow where
  id : Int
  bucket_id : Int
  content : String
  created_at : Int
deriving Repr, DecidableEq

/-- The store state: contents of the two tables created by `init_schema`
plus the AUTOINCREMENT counters (SQLite rowids start at 1). -/
structure DBState where
  buckets : List BucketRow
  cookies : List CookieRow
  nextBucketId : Int
  nextCookieId : Int
deriving Repr, DecidableEq

/-- The store right after `init_schema` on a fresh database: both tables
exist and are empty. -/
def emptyDB : DBState :=
  { buckets := [], cookies := [], nextBucketId := 1, nextCookieId := 1 }

/-- The failure cases of the data-access layer (each carried as a
descriptive `anyhow` error by the Rust code). -/
inductive DBError where
  /-- SQLite UNIQUE-constraint failure on `buckets.name`. -/
  | uniqueViolation
  /-- SQLite failure of `CHECK(length(content) <= 300)` on `cookies`. -/
  | checkViolation
  /-- SQLite FOREIGN KEY failure on `cookies.bucket_id`. -/
  | foreignKeyViolation
  /-- The `create_cookie` pre-check:
  "Cookie content must be 300 characters or less". -/
  | contentTooLong
deriving Repr, DecidableEq

/-- Byte count of the UTF-8 encoding of a character list. -/
def utf8LenChars : List Char → Nat
  | [] => 0
  | c :: cs => c.utf8Size + utf8LenChars cs

/-- Rust `str::len()`: the number of bytes of the UTF-8 encoding. -/
def utf8Len (s : String) : Nat := utf8LenChars s.data

/-- The calling-layer pre-check inside `create_cookie` (`db.rs`):
`content.len() > 300` — Rust `len()` counts UTF-8 bytes. -/
def callerCheckRejects (content : String) : Bool := decide (300 < utf8Len content)

/-- The store-level constraint `CHECK(length(content) <= 300)` declared by
`init_schema`: SQLite `length()` on a text value counts characters
(code points), not bytes. -/
def storeCheckRejects (content : String) : Bool := decide (300 < content.length)

/-- Whether a row with this name is present in `buckets`
(the `name TEXT UNIQUE` constraint consults exactly this). -/
def bucketNameExists (s : DBState) (name : String) : Bool :=
  s.buckets.any (fun r => decide (r.name = name))

/-- Whether a row with this id is present in `buckets`
(the FOREIGN KEY constraint on `cookies.bucket_id` consults this). -/
def bucketIdExists (s : DBState) (bucket_id : Int) : Bool :=
  s.buckets.any (fun r => decide (r.id = bucket_id))

/-- Embedding of `create_bucket` (`db.rs`): INSERT a row with the current
timestamp (UNIQUE on `name` may reject), read `last_insert_rowid()`, and
return the entity built by `Bucket::new`.  On failure the statement
leaves the store unchanged. -/
def create_bucket (s : DBState) (name : String) (timestamp : Int) :
    DBState × Except DBError Bucket :=
  if bucketNameExists s name then
    (s, .error .uniqueViolation)
  else
    ({ s with
        buckets := s.buckets ++ [{ id := s.nextBucketId, name := name, created_at := timestamp }],
        nextBucketId := s.nextBucketId + 1 },
     .ok (Bucket.new s.nextBucketId name timestamp))

/-- Ordering used by `get_all_buckets` (`ORDER BY name`); SQLite's default
BINARY collation compares UTF-8 bytes, which agrees with the code-point
lexicographic order on strings. -/
def byName (a b : BucketRow) : Prop := a.name ≤ b.name

instance : DecidableRel byName :=
  fun a b => inferInstanceAs (Decidable (a.name ≤ b.name))

instance : IsTotal BucketRow byName := ⟨fun a b => le_total a.name b.name⟩

instance : IsTrans BucketRow byName := ⟨fun _ _ _ hab hbc => le_trans hab hbc⟩

/-- Embedding of `get_all_buckets` (`db.rs`):
`SELECT id, name, created_at FROM buckets ORDER BY name`, each row turned
into an entity by `Bucket::new`. -/
def get_all_buckets (s : DBState) : Except DBError (List Bucket) :=
  .ok ((s.buckets.insertionSort byName).map (fun r => Bucket.new r.id r.name r.created_at))

/-- Embedding of `count_cookies_in_bucket` (`db.rs`):
`SELECT COUNT(*) FROM cookies WHERE bucket_id = ?1`.  The aggregate
always yields one row, so the `else` branch returning 0 is never taken. -/
def count_cookies_in_bucket (s : DBState) (bucket_id : Int) : Except DBError Int :=
  .ok ((s.cookies.filter (fun r => decide (r.bucket_id = bucket_id))).length : Int)

/-- Embedding of `create_cookie` (`db.rs`): the calling-layer length
pre-check (`content.len() > 300`, bails before any store write), then the
INSERT with the store-level constraints declared by `init_schema` (the
CHECK on `length(content)`, then the FOREIGN KEY on `bucket_id`), then
`last_insert_rowid()`.  A failed statement leaves the store unchanged. -/
def create_cookie (s : DBState) (bucket_id : Int) (content : String) (timestamp : Int) :
    DBState × Except DBError Int :=
  if callerCheckRejects content then
    (s, .error .contentTooLong)
  else if storeCheckRejects content then
    (s, .error .checkViolation)
  else if bucketIdExists s bucket_id then
    ({ s with
        cookies := s.cookies ++
          [{ id := s.nextCookieId, bucket_id := bucket_id, content := content,
             created_at := timestamp }],
        nextCookieId := s.nextCookieId + 1 },
     .ok s.nextCookieId)
  else
    (s, .error .foreignKeyViolation)

/-- Ordering used by the cookie queries (`ORDER BY created_at DESC`). -/
def byCreatedDesc (a b : CookieRow) : Prop := b.created_at ≤ a.created_at

instance : DecidableRel byCreatedDesc :=
  fun a b => inferInstanceAs (Decidable (b.created_at ≤ a.created_at))

instance : IsTotal CookieRow byCreatedDesc := ⟨fun a b => le_total b.created_at a.created_at⟩

instance : IsTrans CookieRow byCreatedDesc := ⟨fun _ _ _ hab hbc => le_trans hbc hab⟩

/-- Row-to-entity conversion shared by the cookie queries: each row is
turned into an entity by `Cookie::new`. -/
def cookieOfRow (r : CookieRow) : Cookie := Cookie.new r.id r.bucket_id r.content r.created_at

/-- Embedding of `get_all_cookies` (`db.rs`): `SELECT id, bucket_id,
content, created_at FROM cookies ORDER BY created_at DESC`. -/
def get_all_cookies (s : DBState) : Except DBError (List Cookie) :=
  .ok ((s.cookies.insertionSort byCreatedDesc).map cookieOfRow)

/-- Embedding of `get_cookies_by_bucket` (`db.rs`): same query filtered by
`WHERE bucket_id = ?1`. -/
def get_cookies_by_bucket (s : DBState) (bucket_id : Int) : Except DBError (List Cookie) :=
  .ok (((s.cookies.filter (fun r => decide (r.bucket_id = bucket_id))).insertionSort
      byCreatedDesc).map cookieOfRow)

/-- Outcome of one iteration of the `main` loop (`main.rs`):
`continueLoop` goes to the next menu cycle, `exitOk` is the goodbye path,
`exitErr` means the `async` block returns `Err` — the loop is left and
the process terminates with that error. -/
inductive LoopOutcome where
  | continueLoop
  | exitOk
  | exitErr (msg : String)
deriving Repr, DecidableEq

/-- Control flow of one iteration of the `main` loop body (`main.rs`).
`menuResult` is what `show_main_menu` returned (an error from within a
menu flow — including a failed `db.sync()` after a bucket creation in
`menu.rs` — surfaces here); `syncResult` is the per-cycle
`database.sync().await` that the loop body runs with `?` after an `Ok`
menu result. -/
def mainLoopStep (menuResult : Except String Bool) (syncResult : Except String Unit) :
    LoopOutcome :=
  match menuResult with
  | .error _ =>
      -- eprintln the error; "Continue running even if there's an error"
      .continueLoop
  | .ok true =>
      -- "Sync one final time before exiting": `?` propagates a failure
      match syncResult with
      | .ok _ => .exitOk
      | .error e => .exitErr e
  | .ok false =>
      -- "After each operation, sync with remote": `?` propagates a failure
      match syncResult with
      | .ok _ => .continueLoop
      | .error e => .exitErr e

/-- The i64 second counts that `chrono::Utc::now().timestamp()` can
produce: timestamps of valid chrono instants. -/
def tsInRange (t : Int) : Prop := chronoMinTimestamp ≤ t ∧ t ≤ chronoMaxTimestamp

/-- Store states reachable by the program: a fresh database mutated by
the two insert operations, each called with a clock value taken from
`chrono::Utc::now()`.  The read-only queries and `sync` do not change the
local data (the store has no other writer in this single-user system). -/
inductive Reachable : DBState → Prop where
  | init : Reachable emptyDB
  | bucket (s : DBState) (name : String) (ts : Int) (hts : tsInRange ts)
      (hs : Reachable s) : Reachable (create_bucket s name ts).1
  | cookie (s : DBState) (b : Int) (content : String) (ts : Int) (hts : tsInRange ts)
      (hs : Reachable s) : Reachable (create_cookie s b content ts).1

/-- A one-bucket store used as a concrete evaluation point: the result of
creating bucket "Work" on a fresh database. -/
def demoDB : DBState := (create_bucket emptyDB "Work" 0).1

/-- A concrete content string of 151 copies of the two-byte character
U+00E9: 151 characters, 302 UTF-8 bytes. -/
def contentE151 : String := String.mk (List.replicate 151 'é')

/-- A concrete content string of 301 ASCII characters (301 bytes). -/
def contentA301 : String := String.mk (List.replicate 301 'a')

/-- A store with one bucket and two cookies inserted at different seconds,
used as a concrete evaluation point. -/
def demoDB2 : DBState := (create_cookie (create_cookie demoDB 1 "first" 10).1 1 "second" 20).1

/-! Helper lemmas shared by the claim theorems. -/

theorem utf8LenChars_ge_length (cs : List Char) : cs.length ≤ utf8LenChars cs := by
  induction cs with
  | nil => simp [utf8LenChars]
  | cons c cs ih =>
      simp only [List.length_cons, utf8LenChars]
      have hc := Char.utf8Size_pos c
      omega

/-- Every character takes at least one UTF-8 byte, so the character count
of a string is at most its byte count. -/
theorem length_le_utf8Len (s : String) : s.length ≤ utf8Len s :=
  utf8LenChars_ge_length s.data

/-- A string the byte-based pre-check accepts is also accepted by the
character-based store check. -/
theorem storeCheck_le_callerCheck (content : String)
    (h : callerCheckRejects content = false) : storeCheckRejects content = false := by
  simp only [callerCheckRejects, decide_eq_false_iff_not, not_lt] at h
  simp only [storeCheckRejects, decide_eq_false_iff_not, not_lt]
  exact le_trans (length_le_utf8Len content) h

/-- A string the store check rejects is also rejected by the pre-check. -/
theorem callerCheck_of_storeCheck (content : String)
    (h : storeCheckRejects content = true) : callerCheckRejects content = true := by
  by_contra hc
  rw [Bool.not_eq_true] at hc
  rw [storeCheck_le_callerCheck content hc] at h
  exact Bool.false_ne_true h

/-- Shape of a successful `create_cookie` call: pre-check passed and the
referenced bucket exists, so the row is appended and the fresh rowid is
returned. -/
theorem create_cookie_ok (s : DBState) (b : Int) (content : String) (ts : Int)
    (h1 : callerCheckRejects content = false) (h2 : bucketIdExists s b = true) :
    create_cookie s b content ts =
      ({ s with
          cookies := s.cookies ++
            [{ id := s.nextCookieId, bucket_id := b, content := content, created_at := ts }],
          nextCookieId := s.nextCookieId + 1 },
       .ok s.nextCookieId) := by
  have h3 := storeCheck_le_callerCheck content h1
  simp [create_cookie, h1, h2, h3]

/-- Shape of a `create_cookie` call rejected by the pre-check: the error
is raised before any store write and the store is unchanged. -/
theorem create_cookie_tooLong (s : DBState) (b : Int) (content : String) (ts : Int)
    (h1 : callerCheckRejects content = true) :
    create_cookie s b content ts = (s, .error .contentTooLong) := by
  simp [create_cookie, h1]

/-- Shape of a `create_cookie` call that reaches the INSERT with a
dangling bucket reference: the FOREIGN KEY constraint rejects it and the
store is unchanged. -/
theorem create_cookie_fk (s : DBState) (b : Int) (content : String) (ts : Int)
    (h1 : callerCheckRejects content = false) (h2 : bucketIdExists s b = false) :
    create_cookie s b content ts = (s, .error .foreignKeyViolation) := by
  have h3 := storeCheck_le_callerCheck content h1
  simp [create_cookie, h1, h2, h3]

/-- A failed `create_cookie` call of any kind leaves the store unchanged. -/
theorem create_cookie_err_state (s : DBState) (b : Int) (content : String) (ts : Int)
    (e : DBError) (h : (create_cookie s b content ts).2 = .error e) :
    (create_cookie s b content ts).1 = s := by
  by_cases h1 : callerCheckRejects content = true
  · rw [create_cookie_tooLong s b content ts h1]
  · rw [Bool.not_eq_true] at h1
    by_cases h2 : bucketIdExists s b = true
    · rw [create_cookie_ok s b content ts h1 h2] at h
      simp at h
    · rw [Bool.not_eq_true] at h2
      rw [create_cookie_fk s b content ts h1 h2]

/-- Shape of a successful `create_bucket` call. -/
theorem create_bucket_ok (s : DBState) (name : String) (ts : Int)
    (h : bucketNameExists s name = false) :
    create_bucket s name ts =
      ({ s with
          buckets := s.buckets ++ [{ id := s.nextBucketId, name := name, created_at := ts }],
          nextBucketId := s.nextBucketId + 1 },
       .ok (Bucket.new s.nextBucketId name ts)) := by
  simp [create_bucket, h]

/-- Shape of a `create_bucket` call rejected by the UNIQUE constraint. -/
theorem create_bucket_dup (s : DBState) (name : String) (ts : Int)
    (h : bucketNameExists s name = true) :
    create_bucket s name ts = (s, .error .uniqueViolation) := by
  simp [create_bucket, h]

/-- Appending a bucket row preserves any `bucketIdExists` fact. -/
theorem bucketIdExists_append (s : DBState) (row : BucketRow) (b : Int)
    (h : bucketIdExists s b = true) :
    (s.buckets ++ [row]).any (fun r => decide (r.id = b)) = true := by
  simp only [List.any_append, Bool.or_eq_true]
  exact Or.inl h

/-- Foreign-key invariant: in every reachable store state, every cookie
row references an existing bucket row. -/
theorem reachable_fk (s : DBState) (hs : Reachable s) :
    ∀ r ∈ s.cookies, bucketIdExists s r.bucket_id = true := by
  induction hs with
  | init => intro r hr; simp [emptyDB] at hr
  | bucket s name ts hts hsr ih =>
      intro r hr
      by_cases hex : bucketNameExists s name = true
      · rw [create_bucket_dup s name ts hex] at hr ⊢
        exact ih r hr
      · rw [Bool.not_eq_true] at hex
        rw [create_bucket_ok s name ts hex] at hr ⊢
        simp only at hr
        have := ih r hr
        exact bucketIdExists_append s _ r.bucket_id this
  | cookie s b content ts hts hsr ih =>
      intro r hr
      by_cases h1 : callerCheckRejects content = true
      · rw [create_cookie_tooLong s b content ts h1] at hr ⊢
        exact ih r hr
      · rw [Bool.not_eq_true] at h1
        by_cases h2 : bucketIdExists s b = true
        · rw [create_cookie_ok s b content ts h1 h2] at hr ⊢
          simp only [List.mem_append, List.mem_singleton] at hr
          cases hr with
          | inl hold => exact ih r hold
          | inr hnew => rw [hnew]; exact h2
        · rw [Bool.not_eq_true] at h2
          rw [create_cookie_fk s b content ts h1 h2] at hr ⊢
          exact ih r hr

/-- Clock invariant: in every reachable store state, every cookie row's
`created_at` is the timestamp of a valid chrono instant. -/
theorem reachable_ts (s : DBState) (hs : Reachable s) :
    ∀ r ∈ s.cookies, tsInRange r.created_at := by
  induction hs with
  | init => intro r hr; simp [emptyDB] at hr
  | bucket s name ts hts hsr ih =>
      intro r hr
      by_cases hex : bucketNameExists s name = true
      · rw [create_bucket_dup s name ts hex] at hr
        exact ih r hr
      · rw [Bool.not_eq_true] at hex
        rw [create_bucket_ok s name ts hex] at hr
        exact ih r hr
  | cookie s b content ts hts hsr ih =>
      intro r hr
      by_cases h1 : callerCheckRejects content = true
      · rw [create_cookie_tooLong s b content ts h1] at hr
        exact ih r hr
      · rw [Bool.not_eq_true] at h1
        by_cases h2 : bucketIdExists s b = true
        · rw [create_cookie_ok s b content ts h1 h2] at hr
          simp only [List.mem_append, List.mem_singleton] at hr
          cases hr with
          | inl hold => exact ih r hold
          | inr hnew => rw [hnew]; exact hts
        · rw [Bool.not_eq_true] at h2
          rw [create_cookie_fk s b content ts h1 h2] at hr
          exact ih r hr

/-- For an in-range row timestamp, `Cookie::new` keeps it unchanged. -/
theorem cookieOfRow_created_at (r : CookieRow) (h : tsInRange r.created_at) :
    (cookieOfRow r).created_at = r.created_at := by
  simp [cookieOfRow, Cookie.new, dateTimeFromTimestamp, tsInRange] at h ⊢
  simp [h.1, h.2]

/-- The one-bucket evaluation state is reachable. -/
theorem reachable_demoDB : Reachable demoDB :=
  Reachable.bucket emptyDB "Work" 0 ⟨by decide, by decide⟩ Reachable.init

/-- The two-cookie evaluation state is reachable. -/
theorem reachable_demoDB2 : Reachable demoDB2 :=
  Reachable.cookie (create_cookie demoDB 1 "first" 10).1 1 "second" 20 ⟨by decide, by decide⟩
    (Reachable.cookie demoDB 1 "first" 10 ⟨by decide, by decide⟩ reachable_demoDB)

/-! Claim theorems. -/

/-- C1, counterexample: the claim says `create_cookie` succeeds for every
content string of at most 300 characters and that the calling-layer
pre-check and the store-level check reject the same strings.  A string of
151 two-byte characters has 151 ≤ 300 characters, references an existing
bucket, and is nevertheless rejected by the byte-counting pre-check —
which the character-counting store check would have accepted. -/
theorem c1_counterexample :
    contentE151.length ≤ 300 ∧
    bucketIdExists demoDB 1 = true ∧
    (create_cookie demoDB 1 contentE151 0).2 = .error .contentTooLong ∧
    callerCheckRejects contentE151 = true ∧
    storeCheckRejects contentE151 = false := by
  refine ⟨by decide, by decide, rfl, by decide, by decide⟩

/-- C1, amended: for every content string of UTF-8 byte length at most
300 and a `bucket_id` that exists, `create_cookie` succeeds and appends
the row; for byte length greater than 300 it fails with the descriptive
pre-check error before any store write, leaving the store unchanged; and
the calling-layer pre-check (bytes) rejects a superset of the strings the
store-level check (characters) rejects, not exactly the same set. -/
theorem c1_amended_theorem (s : DBState) (b : Int) (content : String) (ts : Int) :
    (utf8Len content ≤ 300 → bucketIdExists s b = true →
      (create_cookie s b content ts).2 = .ok s.nextCookieId ∧
      (create_cookie s b content ts).1.cookies =
        s.cookies ++
          [{ id := s.nextCookieId, bucket_id := b, content := content, created_at := ts }]) ∧
    (300 < utf8Len content →
      create_cookie s b content ts = (s, .error .contentTooLong)) ∧
    (storeCheckRejects content = true → callerCheckRejects content = true) := by
  refine ⟨?_, ?_, callerCheck_of_storeCheck content⟩
  · intro hlen hb
    have h1 : callerCheckRejects content = false := by
      simp only [callerCheckRejects, decide_eq_false_iff_not, not_lt]
      exact hlen
    rw [create_cookie_ok s b content ts h1 hb]
    exact ⟨rfl, rfl⟩
  · intro hlen
    have h1 : callerCheckRejects content = true := by
      simp only [callerCheckRejects, decide_eq_true_eq]
      exact hlen
    exact create_cookie_tooLong s b content ts h1

/-- C1, witness for the amended theorem at concrete inputs: a 19-byte
ASCII string is accepted into the demo store, and a 301-byte string is
rejected with the store unchanged. -/
theorem c1_amended_theorem_witness :
    ((create_cookie demoDB 1 "Shipped the release" 5).2 = .ok 1 ∧
      (create_cookie demoDB 1 "Shipped the release" 5).1.cookies =
        demoDB.cookies ++
          [{ id := 1, bucket_id := 1, content := "Shipped the release", created_at := 5 }]) ∧
    create_cookie demoDB 1 contentA301 7 = (demoDB, .error .contentTooLong) :=
  ⟨(c1_amended_theorem demoDB 1 "Shipped the release" 5).1 (by decide) (by decide),
   (c1_amended_theorem demoDB 1 contentA301 7).2.1 (by decide)⟩

/-- C2: a `create_cookie` call whose `bucket_id` references no existing
bucket fails and leaves the store (in particular the cookies table)
unchanged; when the INSERT is actually attempted (the length pre-check
passed), the error is the FOREIGN KEY violation. -/
theorem c2_theorem (s : DBState) (b : Int) (content : String) (ts : Int)
    (hb : bucketIdExists s b = false) :
    (create_cookie s b content ts).1 = s ∧
    (create_cookie s b content ts).2.isOk = false ∧
    (callerCheckRejects content = false →
      (create_cookie s b content ts).2 = .error .foreignKeyViolation) := by
  by_cases h1 : callerCheckRejects content = true
  · rw [create_cookie_tooLong s b content ts h1]
    refine ⟨rfl, rfl, ?_⟩
    intro hfalse
    rw [h1] at hfalse
    exact absurd hfalse (by simp)
  · rw [Bool.not_eq_true] at h1
    rw [create_cookie_fk s b content ts h1 hb]
    exact ⟨rfl, rfl, fun _ => rfl⟩

/-- C2, witness: creating a cookie in the demo store against the absent
bucket 999 fails with the FOREIGN KEY error and changes nothing. -/
theorem c2_theorem_witness :
    (create_cookie demoDB 999 "x" 0).1 = demoDB ∧
    (create_cookie demoDB 999 "x" 0).2.isOk = false ∧
    (callerCheckRejects "x" = false →
      (create_cookie demoDB 999 "x" 0).2 = .error .foreignKeyViolation) :=
  c2_theorem demoDB 999 "x" 0 (by decide)

/-- C3, counterexample: the claim says a failed sync in the steady-state
main-menu loop never terminates the process.  But the loop body runs the
per-cycle `database.sync().await?` with the `?` operator: after a normal
menu cycle (`Ok(false)`), a sync failure propagates out of the loop and
the process terminates with that error instead of continuing. -/
theorem c3_counterexample :
    mainLoopStep (.ok false) (.error "Failed to sync with remote") =
      .exitErr "Failed to sync with remote" ∧
    mainLoopStep (.ok false) (.error "Failed to sync with remote") ≠ .continueLoop := by
  exact ⟨rfl, by decide⟩

/-- C3, amended: a sync failure that happens inside a menu flow (such as
the post-bucket-creation `db.sync()` in `menu.rs`) surfaces as an `Err`
from `show_main_menu`, is reported, and the loop continues to the next
cycle; but the per-cycle sync in the loop body itself is run with `?`, so
its failure exits the loop and terminates the process with that error. -/
theorem c3_amended_theorem (e : String) (syncResult : Except String Unit) :
    mainLoopStep (.error e) syncResult = .continueLoop ∧
    mainLoopStep (.ok false) (.error e) = .exitErr e :=
  ⟨rfl, rfl⟩

/-- C4: after a successful `create_bucket`, a second call with the same
name is rejected by the UNIQUE constraint, leaves the store unchanged,
and the buckets table contains exactly one row with that name both before
and after the failed second call. -/
theorem c4_theorem (s : DBState) (name : String) (ts1 ts2 : Int) (b : Bucket)
    (h : (create_bucket s name ts1).2 = .ok b) :
    ((create_bucket (create_bucket s name ts1).1 name ts2).2 = .error .uniqueViolation) ∧
    ((create_bucket (create_bucket s name ts1).1 name ts2).1 = (create_bucket s name ts1).1) ∧
    (((create_bucket s name ts1).1.buckets.filter (fun r => decide (r.name = name))).length
      = 1) ∧
    (((create_bucket (create_bucket s name ts1).1 name ts2).1.buckets.filter
        (fun r => decide (r.name = name))).length = 1) := by
  have hex : bucketNameExists s name = false := by
    by_contra hc
    rw [Bool.not_eq_false] at hc
    rw [create_bucket_dup s name ts1 hc] at h
    exact absurd h (by simp)
  rw [create_bucket_ok s name ts1 hex]
  have hfilter : (s.buckets.filter (fun r => decide (r.name = name))).length = 0 := by
    have hnil : s.buckets.filter (fun r => decide (r.name = name)) = [] := by
      rw [List.filter_eq_nil_iff]
      intro a ha
      have := List.any_eq_false.mp hex a ha
      exact this
    rw [hnil]
    rfl
  have hex2 : bucketNameExists
      { s with
          buckets := s.buckets ++ [{ id := s.nextBucketId, name := name, created_at := ts1 }],
          nextBucketId := s.nextBucketId + 1 } name = true := by
    simp [bucketNameExists, List.any_append]
  rw [create_bucket_dup _ name ts2 hex2]
  refine ⟨rfl, rfl, ?_, ?_⟩ <;>
    simp [List.filter_append, hfilter]

/-- C4, witness: creating "Work" twice on a fresh store — the second call
fails with the constraint error and one row named "Work" remains. -/
theorem c4_theorem_witness :
    ((create_bucket (create_bucket emptyDB "Work" 0).1 "Work" 3).2 =
      .error .uniqueViolation) ∧
    ((create_bucket (create_bucket emptyDB "Work" 0).1 "Work" 3).1 =
      (create_bucket emptyDB "Work" 0).1) ∧
    (((create_bucket emptyDB "Work" 0).1.buckets.filter
        (fun r => decide (r.name = "Work"))).length = 1) ∧
    (((create_bucket (create_bucket emptyDB "Work" 0).1 "Work" 3).1.buckets.filter
        (fun r => decide (r.name = "Work"))).length = 1) :=
  c4_theorem emptyDB "Work" 0 3 (Bucket.new 1 "Work" 0) rfl

/-- C5: for every store state and bucket id, `count_cookies_in_bucket`
returns exactly the length of the sequence `get_cookies_by_bucket`
returns for the same bucket id. -/
theorem c5_theorem (s : DBState) (b : Int) (cs : List Cookie)
    (h : get_cookies_by_bucket s b = .ok cs) :
    count_cookies_in_bucket s b = .ok (cs.length : Int) := by
  simp only [get_cookies_by_bucket, Except.ok.injEq] at h
  subst h
  have hlen := (List.perm_insertionSort byCreatedDesc
      (s.cookies.filter (fun r => decide (r.bucket_id = b)))).length_eq
  simp [count_cookies_in_bucket, hlen]

/-- C5, witness: in the two-cookie demo store the count for bucket 1 is
the length of the listed sequence. -/
theorem c5_theorem_witness :
    count_cookies_in_bucket demoDB2 1 =
      .ok (([Cookie.new 2 1 "second" 20, Cookie.new 1 1 "first" 10] : List Cookie).length :
        Int) :=
  c5_theorem demoDB2 1 [Cookie.new 2 1 "second" 20, Cookie.new 1 1 "first" 10] rfl

/-- C6: in every reachable store state, `get_all_cookies` returns a
sequence that contains exactly the stored cookies (as entities), ordered
by `created_at` descending; consequently of two cookies with different
timestamps the later one appears strictly before the earlier one. -/
theorem c6_theorem (s : DBState) (cs : List Cookie)
    (hre : Reachable s) (h : get_all_cookies s = .ok cs) :
    cs.Pairwise (fun a b => b.created_at ≤ a.created_at) ∧
    cs.Perm (s.cookies.map cookieOfRow) ∧
    (∀ i j : Fin cs.length,
      (cs.get i).created_at < (cs.get j).created_at → (j : ℕ) < (i : ℕ)) := by
  simp only [get_all_cookies, Except.ok.injEq] at h
  subst h
  have hsorted : (s.cookies.insertionSort byCreatedDesc).Pairwise byCreatedDesc :=
    List.sorted_insertionSort byCreatedDesc s.cookies
  have hperm := List.perm_insertionSort byCreatedDesc s.cookies
  have hmem : ∀ r ∈ s.cookies.insertionSort byCreatedDesc, tsInRange r.created_at := by
    intro r hr
    exact reachable_ts s hre r (hperm.mem_iff.mp hr)
  have hpw : ((s.cookies.insertionSort byCreatedDesc).map cookieOfRow).Pairwise
      (fun a b => b.created_at ≤ a.created_at) := by
    rw [List.pairwise_map]
    refine List.Pairwise.imp_of_mem ?_ hsorted
    intro a b ha hb hab
    rw [cookieOfRow_created_at a (hmem a ha), cookieOfRow_created_at b (hmem b hb)]
    exact hab
  refine ⟨hpw, hperm.map cookieOfRow, ?_⟩
  intro i j hlt
  rcases lt_trichotomy (i : ℕ) (j : ℕ) with hij | hij | hij
  · have hle := List.pairwise_iff_get.mp hpw i j (Fin.lt_def.mpr hij)
    exact absurd hlt (not_lt.mpr hle)
  · have heq : i = j := Fin.ext hij
    subst heq
    exact absurd hlt (lt_irrefl _)
  · exact hij

/-- C6, witness: the two-cookie demo store lists the second-inserted
cookie (timestamp 20) before the first (timestamp 10). -/
theorem c6_theorem_witness :
    ([Cookie.new 2 1 "second" 20, Cookie.new 1 1 "first" 10] : List Cookie).Pairwise
      (fun a b => b.created_at ≤ a.created_at) ∧
    ([Cookie.new 2 1 "second" 20, Cookie.new 1 1 "first" 10] : List Cookie).Perm
      (demoDB2.cookies.map cookieOfRow) :=
  ⟨(c6_theorem demoDB2 [Cookie.new 2 1 "second" 20, Cookie.new 1 1 "first" 10]
      reachable_demoDB2 rfl).1,
   (c6_theorem demoDB2 [Cookie.new 2 1 "second" 20, Cookie.new 1 1 "first" 10]
      reachable_demoDB2 rfl).2.1⟩

/-- C7: `get_all_buckets` returns exactly the stored buckets (as
entities), ordered by name ascending in the code-point order that
SQLite's default BINARY collation induces, and on an empty store it
returns the empty sequence rather than an error. -/
theorem c7_theorem (s : DBState) (bs : List Bucket)
    (h : get_all_buckets s = .ok bs) :
    bs.Pairwise (fun a b => a.name ≤ b.name) ∧
    bs.Perm (s.buckets.map (fun r => Bucket.new r.id r.name r.created_at)) ∧
    get_all_buckets emptyDB = .ok [] := by
  simp only [get_all_buckets, Except.ok.injEq] at h
  subst h
  refine ⟨?_, ?_, rfl⟩
  · rw [List.pairwise_map]
    exact List.sorted_insertionSort byName s.buckets
  · exact (List.perm_insertionSort byName s.buckets).map _

/-- C7, witness: the one-bucket demo store lists its single bucket, and
the fresh store lists nothing. -/
theorem c7_theorem_witness :
    ([Bucket.new 1 "Work" 0] : List Bucket).Pairwise (fun a b => a.name ≤ b.name) ∧
    ([Bucket.new 1 "Work" 0] : List Bucket).Perm
      (demoDB.buckets.map (fun r => Bucket.new r.id r.name r.created_at)) ∧
    get_all_buckets emptyDB = .ok [] :=
  c7_theorem demoDB [Bucket.new 1 "Work" 0] rfl

/-- C8: `count_cookies_in_bucket` returns 0 (a success, not an error)
for any bucket id with no cookies; in every reachable state it returns 0
for a bucket id absent from the buckets table; and it performs no
bucket-existence check — its result does not depend on the buckets table
at all. -/
theorem c8_theorem (s : DBState) (b : Int) :
    (s.cookies.all (fun r => decide (¬ r.bucket_id = b)) = true →
      count_cookies_in_bucket s b = .ok 0) ∧
    (Reachable s → bucketIdExists s b = false →
      count_cookies_in_bucket s b = .ok 0) ∧
    (∀ bs2 : List BucketRow,
      count_cookies_in_bucket { s with buckets := bs2 } b =
        count_cookies_in_bucket s b) := by
  have hmain : (∀ r ∈ s.cookies, ¬ r.bucket_id = b) →
      count_cookies_in_bucket s b = .ok 0 := by
    intro hall
    have hnil : s.cookies.filter (fun r => decide (r.bucket_id = b)) = [] := by
      rw [List.filter_eq_nil_iff]
      intro a ha
      simpa using hall a ha
    simp [count_cookies_in_bucket, hnil]
  refine ⟨?_, ?_, fun bs2 => rfl⟩
  · intro h
    refine hmain ?_
    intro r hr
    simpa using List.all_eq_true.mp h r hr
  · intro hre hb
    refine hmain ?_
    intro r hr heq
    have hfk := reachable_fk s hre r hr
    rw [heq] at hfk
    simp [hfk] at hb

/-- C8, witness: bucket id 999 exists nowhere in the demo store; the
count is 0 in all three readings. -/
theorem c8_theorem_witness :
    count_cookies_in_bucket demoDB 999 = .ok 0 ∧
    count_cookies_in_bucket demoDB 999 = .ok 0 ∧
    count_cookies_in_bucket { demoDB with buckets := [] } 999 =
      count_cookies_in_bucket demoDB 999 :=
  ⟨(c8_theorem demoDB 999).1 (by decide),
   (c8_theorem demoDB 999).2.1 reachable_demoDB (by decide),
   (c8_theorem demoDB 999).2.2 []⟩

/-- C9, counterexample: the claim says every accepted cookie has content
of 1 to 300 characters and that `create_cookie` rejects the empty
string.  But `create_cookie` only checks `content.len() > 300`; the
empty-string rejection lives solely in the menu's input validator
(`menu.rs`), outside the data-access layer, so the empty content is
accepted into the store. -/
theorem c9_counterexample :
    ("" : String).length = 0 ∧
    (create_cookie demoDB 1 "" 0).2 = .ok 1 ∧
    (create_cookie demoDB 1 "" 0).1.cookies =
      [{ id := 1, bucket_id := 1, content := "", created_at := 0 }] :=
  ⟨rfl, rfl, rfl⟩

/-- C9, amended: every cookie accepted by `create_cookie` has content of
0 to 300 characters; the empty content string is accepted (its rejection
is performed only by the calling menu layer's input validation, not by
the store layer). -/
theorem c9_amended_theorem (s : DBState) (b : Int) (content : String) (ts : Int) (id : Int)
    (h : (create_cookie s b content ts).2 = .ok id) :
    content.length ≤ 300 ∧
    (bucketIdExists s b = true → (create_cookie s b "" ts).2 = .ok s.nextCookieId) := by
  constructor
  · by_cases h1 : callerCheckRejects content = true
    · rw [create_cookie_tooLong s b content ts h1] at h
      exact absurd h (by simp)
    · rw [Bool.not_eq_true] at h1
      have h2 := storeCheck_le_callerCheck content h1
      simp only [storeCheckRejects, decide_eq_false_iff_not, not_lt] at h2
      exact h2
  · intro hb
    have h1 : callerCheckRejects "" = false := by decide
    rw [create_cookie_ok s b "" ts h1 hb]

/-- C9, witness for the amended theorem: the accepted content "hello"
has at most 300 characters, and the empty content is accepted. -/
theorem c9_amended_theorem_witness :
    ("hello" : String).length ≤ 300 ∧
    (create_cookie demoDB 1 "" 12).2 = .ok 1 :=
  ⟨(c9_amended_theorem demoDB 1 "hello" 12 1 rfl).1,
   (c9_amended_theorem demoDB 1 "hello" 12 1 rfl).2 (by decide)⟩

/-- C10: `Bucket::new` and `Cookie::new` are total: for an i64 second
count outside chrono's representable range the constructed entity's
`created_at` silently becomes the default instant (the Unix epoch), and
for an in-range count it is kept exactly. -/
theorem c10_theorem (id bid t : Int) (name content : String)
    (h : t < chronoMinTimestamp ∨ chronoMaxTimestamp < t) :
    (Bucket.new id name t).created_at = unixEpoch ∧
    (Cookie.new id bid content t).created_at = unixEpoch ∧
    (∀ u : Int, tsInRange u →
      (Bucket.new id name u).created_at = u ∧
      (Cookie.new id bid content u).created_at = u) := by
  have hcond : ¬(chronoMinTimestamp ≤ t ∧ t ≤ chronoMaxTimestamp) := by
    rcases h with h | h
    · intro hc; exact absurd hc.1 (not_le.mpr h)
    · intro hc; exact absurd hc.2 (not_le.mpr h)
  have hnone : dateTimeFromTimestamp t = none := by
    unfold dateTimeFromTimestamp
    rw [if_neg hcond]
  refine ⟨?_, ?_, ?_⟩
  · simp [Bucket.new, hnone]
  · simp [Cookie.new, hnone]
  · intro u hu
    have hsome : dateTimeFromTimestamp u = some u := by
      unfold dateTimeFromTimestamp
      rw [if_pos (show chronoMinTimestamp ≤ u ∧ u ≤ chronoMaxTimestamp from hu)]
    exact ⟨by simp [Bucket.new, hsome], by simp [Cookie.new, hsome]⟩

/-- C10, witness: the second count 9000000000000 is beyond chrono's
maximum, so both constructors fall back to the epoch; the in-range count
0 is kept. -/
theorem c10_theorem_witness :
    (Bucket.new 1 "Work" 9000000000000).created_at = unixEpoch ∧
    (Cookie.new 1 1 "x" 9000000000000).created_at = unixEpoch ∧
    (Bucket.new 1 "Work" 0).created_at = 0 :=
  ⟨(c10_theorem 1 1 9000000000000 "Work" "x" (Or.inr (by decide))).1,
   (c10_theorem 1 1 9000000000000 "Work" "x" (Or.inr (by decide))).2.1,
   ((c10_theorem 1 1 9000000000000 "Work" "x" (Or.inr (by decide))).2.2 0
      ⟨by decide, by decide⟩).1⟩

end CookieJar
